import Mathlib

/-!
Verification development for the bindu-edge gateway (Python/FastAPI source).

Shallow embedding conventions:
* Python dicts become association lists (List (String × v)) with
  insert-overwrite, lookup and pop helpers mirroring dict semantics.
* asyncio futures become an explicit FutureState value; the pending table
  maps request ids to indices into a futures list.
* External I/O (Redis round trips, Control Plane HTTP responses, WebSocket
  send results, the agent reply or its absence) is passed in as explicit
  parameters; handlers are pure functions of those inputs plus state.
* Wall-clock values (expires_at timestamps, last_pong) are outside the
  embedding and omitted; no claim depends on them.
-/

namespace BinduEdge

/-! ### Python dict as an association list -/

/-- Dict lookup: d.get(k) / d[k]. -/
def dictGet {α : Type} (l : List (String × α)) (k : String) : Option α :=
  (l.find? (fun p => p.1 == k)).map (fun p => p.2)

/-- Dict removal: d.pop(k, None) discards the binding for k (keys are unique
in a Python dict, so removing every binding for k models pop). -/
def dictPop {α : Type} (l : List (String × α)) (k : String) : List (String × α) :=
  l.filter (fun p => !(p.1 == k))

/-- Dict insert-overwrite: d[k] = v. -/
def dictInsert {α : Type} (l : List (String × α)) (k : String) (v : α) :
    List (String × α) :=
  (k, v) :: dictPop l k

/-! ### Python str.lower for ASCII header names (http_tunnel.py lines 96-98) -/

/-- ASCII lowering of one character; header names in the claims are ASCII,
where Python str.lower agrees with this. -/
def charLowerAscii (c : Char) : Char :=
  if 'A' ≤ c ∧ c ≤ 'Z' then Char.ofNat (c.toNat + 32) else c

/-- ASCII model of Python str.lower. -/
def strLower (s : String) : String :=
  ⟨s.data.map charLowerAscii⟩

/-! ### Response payload and rendered HTTP response (http_tunnel.py lines 95-107) -/

/-- The JSON object an agent sends in a type=response frame; absent keys are
none (Python dict.get defaults). -/
structure ResponsePayload where
  status : Option Nat
  headers : List (String × String)
  body : Option String
deriving DecidableEq

/-- The outer HTTP response the handler constructs. -/
structure HttpResponse where
  status_code : Nat
  headers : List (String × String)
  content : String
deriving DecidableEq

/-- Rendering of the agent payload, mirroring http_tunnel.py lines 95-107
(and the verbatim copy at lines 200-212): status defaults to 200, body
defaults to the empty string, headers are filtered by
k.lower() not in [content-length, transfer-encoding]. -/
def renderResponse (d : ResponsePayload) : HttpResponse :=
  { status_code := d.status.getD 200
    headers := d.headers.filter
      (fun kv => !(strLower kv.1 == "content-length" || strLower kv.1 == "transfer-encoding"))
    content := d.body.getD "" }

/-! ### TunnelManager pending-request machinery (tunnel_manager.py lines 63-72) -/

/-- State of one asyncio future: pending, completed with a payload
(set_result), or cancelled (by asyncio.wait_for on timeout). -/
inductive FutureState where
  | pending
  | done (d : ResponsePayload)
  | cancelled
deriving DecidableEq

/-- future.done() is true once completed or cancelled. -/
def futureDone : FutureState → Bool
  | .pending => false
  | .done _ => true
  | .cancelled => true

/-- The pending_requests dict: request_id → index of its future in a list of
future cells (futures are heap objects shared between the table and the
awaiting handler, so they are stored by index). -/
structure PendingState where
  table : List (String × Nat)
  futures : List FutureState
deriving DecidableEq

/-- TunnelManager.create_pending_request: allocate a fresh future and insert
it under request_id (tunnel_manager.py lines 63-67). Returns the future index
and the new state. -/
def create_pending_request (r : String) (s : PendingState) : Nat × PendingState :=
  (s.futures.length,
   { table := dictInsert s.table r s.futures.length
     futures := s.futures ++ [.pending] })

/-- TunnelManager.resolve_request (tunnel_manager.py lines 69-72):
future = pending_requests.pop(request_id, None);
if future and not future.done(): future.set_result(data). -/
def resolve_request (r : String) (d : ResponsePayload) (s : PendingState) :
    PendingState :=
  match dictGet s.table r with
  | none => s
  | some fid =>
    let s1 : PendingState := { s with table := dictPop s.table r }
    if futureDone (s1.futures.getD fid .cancelled) then s1
    else { s1 with futures := s1.futures.set fid (.done d) }

/-! ### Control Plane client (control_plane_client.py) -/

/-- Successful slug resolution record as consumed by the forwarder; the
expires_at timestamp (wall clock) is omitted. -/
structure ResolveRecord where
  tunnel_id : String
  status : String
deriving DecidableEq

/-- The validation dict returned by validate_tunnel; absent keys are none
(the handler reads them with dict.get). expires_at omitted (wall clock). -/
structure ValidationDict where
  valid : Option Bool
  tunnel_id : Option String
  status : Option String
deriving DecidableEq

/-- Outcome of one HTTP exchange with the Control Plane: a response with a
status code and parsed JSON body, an httpx.TimeoutException, or another
network exception. -/
inductive CPHttp (β : Type) where
  | resp (status_code : Nat) (body : β)
  | timeoutExc
  | otherExc
deriving DecidableEq

/-- An HTTP request the client would issue to the Control Plane. -/
inductive CPRequest where
  | resolveReq (slug : String)
  | validateReq (tunnel_id : String) (token : String)
deriving DecidableEq

/-- MOCK_SLUGS (control_plane_client.py lines 18-21). -/
def MOCK_SLUGS : List (String × String) :=
  [("my-slug", "tunnel_test123"), ("test-slug", "tunnel_abc456")]

/-- MOCK_TUNNELS (control_plane_client.py lines 23-26): tunnel_id →
(valid, status). -/
def MOCK_TUNNELS : List (String × (Bool × String)) :=
  [("tunnel_test123", (true, "active")), ("tunnel_abc456", (true, "active"))]

/-- ControlPlaneClient state; mock_mode embeds the private field of the
source class. The httpx client handle is not modelled (it is only consulted
in real mode, where the HTTP exchange is an explicit parameter). -/
structure ControlPlaneClient where
  mock_mode : Bool
deriving DecidableEq

/-- ControlPlaneClient.__init__ (lines 32-34): mock mode is on by default. -/
def ControlPlaneClient.init : ControlPlaneClient :=
  { mock_mode := true }

/-- ControlPlaneClient.connect (lines 36-46): in mock mode returns at once;
in real mode only creates the httpx client. Neither path touches mock_mode. -/
def ControlPlaneClient.connect (c : ControlPlaneClient) : ControlPlaneClient :=
  c

/-- Real-mode branch of resolve_slug (lines 82-105): 404 → None, any other
non-200 → None, 200 → body; timeout or exception → None. -/
def resolveSlugReal (http : CPHttp ResolveRecord) : Option ResolveRecord :=
  match http with
  | .resp code body =>
    if code == 404 then none
    else if !(code == 200) then none
    else some body
  | .timeoutExc => none
  | .otherExc => none

/-- ControlPlaneClient.resolve_slug (lines 53-105). The HTTP exchange is a
parameter (used only in real mode); the second component lists the HTTP
requests actually issued. -/
def ControlPlaneClient.resolve_slug (c : ControlPlaneClient)
    (http : CPHttp ResolveRecord) (slug : String) :
    Option ResolveRecord × List CPRequest :=
  if c.mock_mode then
    match dictGet MOCK_SLUGS slug with
    | some tid => (some { tunnel_id := tid, status := "active" }, [])
    | none => (none, [])
  else
    (resolveSlugReal http, [.resolveReq slug])

/-- Real-mode branch of validate_tunnel (lines 151-193): 401 → invalid
unauthorized, 404 → invalid not_found, other non-200 → None, 200 → body;
timeout or exception → None. -/
def validateTunnelReal (http : CPHttp ValidationDict) (tunnel_id : String) :
    Option ValidationDict :=
  match http with
  | .resp code body =>
    if code == 401 then
      some { valid := some false, tunnel_id := some tunnel_id, status := some "unauthorized" }
    else if code == 404 then
      some { valid := some false, tunnel_id := some tunnel_id, status := some "not_found" }
    else if !(code == 200) then none
    else some body
  | .timeoutExc => none
  | .otherExc => none

/-- ControlPlaneClient.validate_tunnel (lines 107-193). In mock mode a known
tunnel_id returns its MOCK_TUNNELS entry and any other tunnel_id is
auto-validated; the token is never consulted. -/
def ControlPlaneClient.validate_tunnel (c : ControlPlaneClient)
    (http : CPHttp ValidationDict) (tunnel_id token : String) :
    Option ValidationDict × List CPRequest :=
  if c.mock_mode then
    match dictGet MOCK_TUNNELS tunnel_id with
    | some info =>
      (some { valid := some info.1, tunnel_id := some tunnel_id, status := some info.2 }, [])
    | none =>
      (some { valid := some true, tunnel_id := some tunnel_id, status := some "active" }, [])
  else
    (validateTunnelReal http tunnel_id, [.validateReq tunnel_id token])

/-! ### Redis-backed tunnel registry (tunnel_registry.py) -/

/-- Redis state: string keys (tunnel:{id} → pod_id, slug:{slug} → tunnel_id)
and set keys (pod:{pod}:tunnels → members). TTLs are wall-clock and outside
the embedding; no claim depends on expiry. -/
structure RedisState where
  strings : List (String × String)
  sets : List (String × List String)
deriving DecidableEq

/-- Redis SET key value NX: create-if-absent; returns whether it was set. -/
def redisSetNX (key val : String) (rs : RedisState) : Bool × RedisState :=
  match dictGet rs.strings key with
  | none => (true, { rs with strings := dictInsert rs.strings key val })
  | some _ => (false, rs)

/-- Redis SADD key member. -/
def redisSAdd (key member : String) (rs : RedisState) : RedisState :=
  match dictGet rs.sets key with
  | none => { rs with sets := dictInsert rs.sets key [member] }
  | some ms =>
    if member ∈ ms then rs
    else { rs with sets := dictInsert rs.sets key (member :: ms) }

/-- TunnelRegistry.register_tunnel (tunnel_registry.py lines 54-83): SET NX
on tunnel:{tunnel_id}; on success SADD into the pod set and report true; on
failure read the existing holder and report false. The returned option is the
existing pod read at line 78. -/
def TunnelRegistry.register_tunnel (pod_id tunnel_id : String) (rs : RedisState) :
    (Bool × Option String) × RedisState :=
  let key := "tunnel:" ++ tunnel_id
  let r1 := redisSetNX key pod_id rs
  if r1.1 then
    ((true, none), redisSAdd ("pod:" ++ pod_id ++ ":tunnels") tunnel_id r1.2)
  else
    ((false, dictGet r1.2.strings key), r1.2)

/-- TunnelManager.register_tunnel (tunnel_manager.py lines 31-42): register
in Redis first; on failure raise ValueError (modelled as Except.error with
the message of line 37) leaving the local table untouched; on success insert
the tunnel into active_tunnels. The websocket is an opaque handle (Nat). -/
def TunnelManager.register_tunnel (pod_id tunnel_id : String) (ws : Nat)
    (active_tunnels : List (String × Nat)) (rs : RedisState) :
    Except String Unit × List (String × Nat) × RedisState :=
  let r1 := TunnelRegistry.register_tunnel pod_id tunnel_id rs
  if r1.1.1 then
    (.ok (), dictInsert active_tunnels tunnel_id ws, r1.2)
  else
    (.error ("Tunnel " ++ tunnel_id ++ " already registered on another pod"),
     active_tunnels, r1.2)

/-! ### HTTP forwarder (http_tunnel.py) -/

/-- Python truthiness of an optional string: None and the empty string are
falsy. -/
def pyTruthyStr (o : Option String) : Bool :=
  !(o.getD "" == "")

/-- Python f-string rendering of an optional string: None prints as None. -/
def pyStrOfOptStr : Option String → String
  | some s => s
  | none => "None"

/-- Observable tunnel-side events of one handler run, for the ordering
claims: insertion into pending_requests and the WebSocket send call. -/
inductive Ev where
  | createPending (r : String)
  | sendFrame (r : String)
deriving DecidableEq

/-- Result of websocket.send_text: returned normally or raised. -/
inductive SendResult where
  | ok
  | fail
deriving DecidableEq

/-- Result of awaiting the pending future under asyncio.wait_for: either the
receive loop resolved it with an agent payload, or the deadline expired
(wait_for cancels the future and raises TimeoutError). -/
inductive AwaitResult where
  | agentReply (d : ResponsePayload)
  | timeoutExpired
deriving DecidableEq

/-- What the handler produces: a raised HTTPException (status, detail) or a
rendered Response. -/
inductive HandlerResult where
  | httpError (status : Nat) (detail : String)
  | response (resp : HttpResponse)
deriving DecidableEq

/-- One handler run: its result, the final pending table state, and the
event trace. -/
structure ForwardOutcome where
  result : HandlerResult
  pend : PendingState
  trace : List Ev
deriving DecidableEq

/-- Slug resolution step of forward_request (http_tunnel.py lines 28-49;
repeated verbatim in proxy_static_to_tunnel at lines 139-160): use the cache
when truthy, else consult the Control Plane result; 404 when absent, 410
when status is not active; on success also record the cache write-back of
line 49. Returns (tunnel_id, optional cache write). -/
def resolveStep (slug : String) (cached : Option String)
    (cp_result : Option ResolveRecord) :
    Except (Nat × String) (String × Option (String × String)) :=
  if pyTruthyStr cached then .ok (cached.getD "", none)
  else
    match cp_result with
    | none => .error (404, "Slug not found")
    | some cp =>
      if !(cp.status == "active") then .error (410, "Tunnel " ++ cp.status)
      else .ok (cp.tunnel_id, some (slug, cp.tunnel_id))

/-- Serialize-check-send-await phase of forward_request (http_tunnel.py
lines 74-107). frameBytes is the UTF-8 byte length of the json.dumps frame
(serialization itself is the external json library). The sendFrame event is
emitted at the send_text call whether or not it raises. In the agentReply
case the receive loop ran resolve_request with the payload, which is what
completes the awaited future; the handler then renders that payload. -/
def forwardSendPhase (maxBytes : Nat) (r : String) (frameBytes : Nat)
    (send : SendResult) (agent : AwaitResult) (s : PendingState) : ForwardOutcome :=
  if frameBytes > maxBytes then
    { result := .httpError 413 "Request payload too large for tunnel"
      pend := s, trace := [] }
  else
    let c := create_pending_request r s
    match send with
    | .fail =>
      { result := .httpError 502 "Failed to send to tunnel"
        pend := { c.2 with table := dictPop c.2.table r }
        trace := [.createPending r, .sendFrame r] }
    | .ok =>
      match agent with
      | .timeoutExpired =>
        { result := .httpError 504 "Tunnel timeout"
          pend := { table := dictPop c.2.table r
                    futures := c.2.futures.set c.1 .cancelled }
          trace := [.createPending r, .sendFrame r] }
      | .agentReply d =>
        { result := .response (renderResponse d)
          pend := resolve_request r d c.2
          trace := [.createPending r, .sendFrame r] }

/-- Same phase of proxy_static_to_tunnel (http_tunnel.py lines 171-212):
identical except that no frame-size check is performed before the send. -/
def staticSendPhase (r : String) (send : SendResult) (agent : AwaitResult)
    (s : PendingState) : ForwardOutcome :=
  let c := create_pending_request r s
  match send with
  | .fail =>
    { result := .httpError 502 "Failed to send to tunnel"
      pend := { c.2 with table := dictPop c.2.table r }
      trace := [.createPending r, .sendFrame r] }
  | .ok =>
    match agent with
    | .timeoutExpired =>
      { result := .httpError 504 "Tunnel timeout"
        pend := { table := dictPop c.2.table r
                  futures := c.2.futures.set c.1 .cancelled }
        trace := [.createPending r, .sendFrame r] }
    | .agentReply d =>
      { result := .response (renderResponse d)
        pend := resolve_request r d c.2
        trace := [.createPending r, .sendFrame r] }

/-- forward_request (http_tunnel.py lines 17-107): resolve the slug, bind
the tunnel websocket from active_tunnels (503 when absent on this pod), then
the send phase. Inputs stand for the externally observed values: the cached
slug read, the Control Plane resolution, the generated uuid4 request_id, the
frame byte length, the send result and the await result. The second
component is the slug cache write-back performed, if any. -/
def forward_request (maxBytes : Nat) (slug : String) (cached : Option String)
    (cp_result : Option ResolveRecord) (active_tunnels : List (String × Nat))
    (r : String) (frameBytes : Nat) (send : SendResult) (agent : AwaitResult)
    (s : PendingState) : ForwardOutcome × Option (String × String) :=
  match resolveStep slug cached cp_result with
  | .error e => ({ result := .httpError e.1 e.2, pend := s, trace := [] }, none)
  | .ok tcw =>
    match dictGet active_tunnels tcw.1 with
    | none =>
      ({ result := .httpError 503 "Tunnel not connected to this pod"
         pend := s, trace := [] }, tcw.2)
    | some _ => (forwardSendPhase maxBytes r frameBytes send agent s, tcw.2)

/-- proxy_static_to_tunnel after the slug has been inferred from the Referer
header (http_tunnel.py lines 139-212): resolve (verbatim copy of the main
resolve step), bind, then the static send phase, which has no size check. -/
def proxy_static_after_slug (slug : String) (cached : Option String)
    (cp_result : Option ResolveRecord) (active_tunnels : List (String × Nat))
    (r : String) (send : SendResult) (agent : AwaitResult)
    (s : PendingState) : ForwardOutcome × Option (String × String) :=
  match resolveStep slug cached cp_result with
  | .error e => ({ result := .httpError e.1 e.2, pend := s, trace := [] }, none)
  | .ok tcw =>
    match dictGet active_tunnels tcw.1 with
    | none =>
      ({ result := .httpError 503 "Tunnel not connected to this pod"
         pend := s, trace := [] }, tcw.2)
    | some _ => (staticSendPhase r send agent s, tcw.2)

/-! ### WebSocket admission (ws_tunnel.py lines 45-116) -/

/-- Observable actions of the admission phase: websocket.accept, a close
with code and reason, or reaching the receive loop. -/
inductive AdmissionAction where
  | accept
  | close (code : Nat) (reason : String)
  | enterLoop
deriving DecidableEq

/-- Admission phase of websocket_tunnel (ws_tunnel.py lines 45-116). The
validation parameter is the value returned by
control_plane_client.validate_tunnel at line 68 (None models a transient
Control Plane failure). Every rejection path accepts the handshake first and
then closes; only the fully admitted path reaches the receive loop. Returns
the action trace together with the resulting active_tunnels table and Redis
state. -/
def websocket_tunnel_admission (tunnel_token : Option String)
    (validation : Option ValidationDict) (pod_id tunnel_id : String) (ws : Nat)
    (active_tunnels : List (String × Nat)) (rs : RedisState) :
    List AdmissionAction × List (String × Nat) × RedisState :=
  if !(pyTruthyStr tunnel_token) then
    ([.accept, .close 1008 "Missing X-Tunnel-Token header"], active_tunnels, rs)
  else
    match validation with
    | none => ([.accept, .close 1011 "Control Plane unavailable"], active_tunnels, rs)
    | some vr =>
      if !(vr.valid.getD false) then
        ([.accept, .close 1008 ("Invalid tunnel credentials: " ++ vr.status.getD "invalid")],
         active_tunnels, rs)
      else if !(vr.status == some "active") then
        ([.accept, .close 1008 ("Tunnel status: " ++ pyStrOfOptStr vr.status)],
         active_tunnels, rs)
      else
        match TunnelManager.register_tunnel pod_id tunnel_id ws active_tunnels rs with
        | (.ok _, at2, rs2) => ([.accept, .enterLoop], at2, rs2)
        | (.error msg, at2, rs2) => ([.accept, .close 1008 msg], at2, rs2)

/-- Spec-side notion used by the header-hygiene claim: two header names are
equal case-insensitively when they agree after ASCII lowering. -/
def eqCaseInsensitive (a b : String) : Prop :=
  strLower a = strLower b

instance (a b : String) : Decidable (eqCaseInsensitive a b) :=
  inferInstanceAs (Decidable (strLower a = strLower b))

/-! ### Concrete fixtures used by witnesses and counterexamples -/

/-- A small agent response payload. -/
def pay0 : ResponsePayload :=
  { status := some 200, headers := [("Content-Length", "3"), ("X-Served", "yes")], body := some "ok" }

/-- A late agent response payload. -/
def pay1 : ResponsePayload :=
  { status := some 201, headers := [], body := some "late" }

/-- A pending table still holding an entry whose future is already
completed. -/
def staleState : PendingState :=
  { table := [("req-1", 0)], futures := [.done pay0] }

/-- A Control Plane validation verdict rejecting the presented token. -/
def invalidVerdict : ValidationDict :=
  { valid := some false, tunnel_id := some "tunnel_test123", status := some "unauthorized" }

/-! ## Helper lemmas -/

theorem dictGet_dictPop {α : Type} (l : List (String × α)) (k : String) :
    dictGet (dictPop l k) k = none := by
  induction l with
  | nil => rfl
  | cons x xs ih =>
    by_cases h : x.1 = k
    · simp [dictPop, dictGet, h]
    · have hb : (x.1 == k) = false := beq_eq_false_iff_ne.mpr h
      simp [dictPop, dictGet, hb]

theorem dictGet_dictInsert {α : Type} (l : List (String × α)) (k : String) (v : α) :
    dictGet (dictInsert l k v) k = some v := by
  simp [dictInsert, dictGet]

theorem dictGet_create_pending (r : String) (s : PendingState) :
    dictGet (create_pending_request r s).2.table r = some (create_pending_request r s).1 := by
  simp [create_pending_request, dictGet_dictInsert]

theorem resolve_request_pops (r : String) (d : ResponsePayload) (s : PendingState) :
    dictGet s.table r ≠ none → dictGet (resolve_request r d s).table r = none := by
  intro h
  cases hg : dictGet s.table r with
  | none => exact absurd hg h
  | some fid =>
    simp only [resolve_request, hg]
    split
    · exact dictGet_dictPop _ _
    · exact dictGet_dictPop _ _

theorem resolveStep_error_codes (slug : String) (cached : Option String)
    (cp_result : Option ResolveRecord) (e : Nat × String) :
    resolveStep slug cached cp_result = .error e → e.1 = 404 ∨ e.1 = 410 := by
  unfold resolveStep
  by_cases hc : pyTruthyStr cached = true
  · simp [hc]
  · simp only [hc, Bool.false_eq_true, ite_false]
    cases cp_result with
    | none =>
      intro h
      injection h with h2
      simp [← h2]
    | some cp =>
      by_cases hs : (!(cp.status == "active")) = true
      · simp only [hs, ite_true]
        intro h
        injection h with h2
        simp [← h2]
      · simp [hs]

theorem redisSAdd_strings (k m : String) (rs : RedisState) :
    (redisSAdd k m rs).strings = rs.strings := by
  unfold redisSAdd
  cases hg : dictGet rs.sets k with
  | none => rfl
  | some ms => by_cases hm : m ∈ ms <;> simp [hm]

theorem register_tunnel_fail_state (pod tid : String) (rs : RedisState) :
    (TunnelRegistry.register_tunnel pod tid rs).1.1 = false →
    (TunnelRegistry.register_tunnel pod tid rs).2 = rs := by
  unfold TunnelRegistry.register_tunnel redisSetNX
  cases hg : dictGet rs.strings ("tunnel:" ++ tid) with
  | none => simp [hg]
  | some v => simp [hg]

/-! ## Claim theorems -/

/-- Claim C2: as shipped the Control Plane client is in mock mode
(mock_mode is true from construction and connect never changes it);
validate_tunnel answers valid=true, status=active for every pair regardless
of the token; resolve_slug succeeds exactly for my-slug and test-slug; and
neither operation issues any HTTP request in mock mode. -/
theorem C2_mock_mode_behaviour :
    ControlPlaneClient.init.mock_mode = true ∧
    (∀ c : ControlPlaneClient, (ControlPlaneClient.connect c).mock_mode = c.mock_mode) ∧
    (∀ (http : CPHttp ValidationDict) (tunnel_id token : String),
      ControlPlaneClient.validate_tunnel .init http tunnel_id token =
        (some { valid := some true, tunnel_id := some tunnel_id, status := some "active" }, [])) ∧
    (∀ (http : CPHttp ResolveRecord) (slug : String),
      (ControlPlaneClient.resolve_slug .init http slug).2 = [] ∧
      ((ControlPlaneClient.resolve_slug .init http slug).1.isSome ↔
        slug = "my-slug" ∨ slug = "test-slug")) := by
  refine ⟨rfl, fun c => rfl, ?_, ?_⟩
  · intro http tunnel_id token
    by_cases h1 : tunnel_id = "tunnel_test123"
    · subst h1; rfl
    · by_cases h2 : tunnel_id = "tunnel_abc456"
      · subst h2; rfl
      · have hb1 : (("tunnel_test123" : String) == tunnel_id) = false :=
          beq_eq_false_iff_ne.mpr (Ne.symm h1)
        have hb2 : (("tunnel_abc456" : String) == tunnel_id) = false :=
          beq_eq_false_iff_ne.mpr (Ne.symm h2)
        simp [ControlPlaneClient.validate_tunnel, ControlPlaneClient.init,
          MOCK_TUNNELS, dictGet, List.find?, hb1, hb2]
  · intro http slug
    by_cases h1 : slug = "my-slug"
    · subst h1; exact ⟨rfl, by simp [ControlPlaneClient.resolve_slug, ControlPlaneClient.init, MOCK_SLUGS, dictGet]⟩
    · by_cases h2 : slug = "test-slug"
      · subst h2; exact ⟨rfl, by simp [ControlPlaneClient.resolve_slug, ControlPlaneClient.init, MOCK_SLUGS, dictGet]⟩
      · have hb1 : (("my-slug" : String) == slug) = false :=
          beq_eq_false_iff_ne.mpr (Ne.symm h1)
        have hb2 : (("test-slug" : String) == slug) = false :=
          beq_eq_false_iff_ne.mpr (Ne.symm h2)
        constructor
        · simp [ControlPlaneClient.resolve_slug, ControlPlaneClient.init,
            MOCK_SLUGS, dictGet, List.find?, hb1, hb2]
        · simp [ControlPlaneClient.resolve_slug, ControlPlaneClient.init,
            MOCK_SLUGS, dictGet, List.find?, hb1, hb2, h1, h2]

/-- Claim C2 witness: concrete instances of the mock behaviour. -/
theorem C2_mock_mode_behaviour_witness :
    ControlPlaneClient.validate_tunnel .init .timeoutExc "tunnel_xyz" "wrong_token" =
      (some { valid := some true, tunnel_id := some "tunnel_xyz", status := some "active" }, []) ∧
    ((ControlPlaneClient.resolve_slug .init .timeoutExc "nope").1.isSome ↔
      ("nope" : String) = "my-slug" ∨ ("nope" : String) = "test-slug") :=
  ⟨C2_mock_mode_behaviour.2.2.1 .timeoutExc "tunnel_xyz" "wrong_token",
   (C2_mock_mode_behaviour.2.2.2 .timeoutExc "nope").2⟩

/-- Claim C8: the rendered response takes the payload status (default 200),
the payload body unchanged, and exactly those payload headers whose name is
not Content-Length or Transfer-Encoding case-insensitively; surviving
headers are propagated unchanged and in order (sublist). -/
theorem C8_header_hygiene :
    ∀ d : ResponsePayload,
      (renderResponse d).status_code = d.status.getD 200 ∧
      (renderResponse d).content = d.body.getD "" ∧
      List.Sublist (renderResponse d).headers d.headers ∧
      (∀ k v, ((k, v) ∈ (renderResponse d).headers ↔
        ((k, v) ∈ d.headers ∧ ¬ eqCaseInsensitive k "Content-Length" ∧
          ¬ eqCaseInsensitive k "Transfer-Encoding"))) := by
  intro d
  have hCL : strLower "Content-Length" = "content-length" := by decide
  have hTE : strLower "Transfer-Encoding" = "transfer-encoding" := by decide
  refine ⟨rfl, rfl, List.filter_sublist _, ?_⟩
  intro k v
  simp [renderResponse, List.mem_filter, eqCaseInsensitive, hCL, hTE,
    Bool.or_eq_true, not_or, and_assoc]

/-- Claim C8 witness: a concrete payload keeps its custom header and loses
its Content-Length header. -/
theorem C8_header_hygiene_witness :
    ("X-Served", "yes") ∈ (renderResponse pay0).headers ∧
    ("Content-Length", "3") ∉ (renderResponse pay0).headers := by
  have h := C8_header_hygiene pay0
  constructor
  · exact (h.2.2.2 "X-Served" "yes").mpr ⟨by decide, by decide, by decide⟩
  · intro hm
    exact absurd ((h.2.2.2 "Content-Length" "3").mp hm).2.1 (by decide)

/-- Claim C10 counterexample: resolve_request is not a no-op on an entry
whose future is already completed; it still removes the table entry, so the
state changes. -/
theorem C10_counterexample :
    resolve_request "req-1" pay1 staleState ≠ staleState := by decide

/-- Claim C10 (amended): resolve_request is a no-op when the request_id is
absent from the pending table; when the entry is present but its future is
already completed it only removes the table entry and never touches any
future (so a completed future is never overwritten); and completing is
idempotent: applying resolve_request twice equals applying it once, so a
late agent reply after the timeout dropped the entry changes nothing. -/
theorem C10_resolve_request_idempotent :
    ∀ (s : PendingState) (r : String) (d : ResponsePayload),
      (dictGet s.table r = none → resolve_request r d s = s) ∧
      resolve_request r d (resolve_request r d s) = resolve_request r d s ∧
      (∀ fid, dictGet s.table r = some fid →
        futureDone (s.futures.getD fid .cancelled) = true →
        (resolve_request r d s).futures = s.futures ∧
        (resolve_request r d s).table = dictPop s.table r) := by
  intro s r d
  refine ⟨?_, ?_, ?_⟩
  · intro h
    simp [resolve_request, h]
  · cases hg : dictGet s.table r with
    | none => simp [resolve_request, hg]
    | some fid =>
      have hnone : dictGet (resolve_request r d s).table r = none :=
        resolve_request_pops r d s (by simp [hg])
      set t := resolve_request r d s with ht
      simp only [resolve_request, hnone]
  · intro fid hg hd
    have hd2 : futureDone (s.futures[fid]?.getD FutureState.cancelled) = true := by
      simpa [List.getD] using hd
    simp [resolve_request, hg, hd2]

/-- Claim C10 witness: on an empty pending table resolve_request is the
identity. -/
theorem C10_resolve_request_idempotent_witness :
    resolve_request "req-x" pay1 { table := [], futures := [] } =
      { table := [], futures := [] } :=
  (C10_resolve_request_idempotent { table := [], futures := [] } "req-x" pay1).1 (by decide)

/-- Claim C5: whatever the run outcome of the forwarder (413 short-circuit,
send failure 502, timeout 504 - which also covers a torn-down tunnel whose
agent never replies - or a successful agent reply), a request_id that was
not pending beforehand is not pending once the handler returns. -/
theorem C5_no_leaked_pending :
    ∀ (maxBytes : Nat) (slug : String) (cached : Option String)
      (cp_result : Option ResolveRecord) (active : List (String × Nat))
      (r : String) (frameBytes : Nat) (send : SendResult) (agent : AwaitResult)
      (s : PendingState),
      dictGet s.table r = none →
      dictGet (forward_request maxBytes slug cached cp_result active r
        frameBytes send agent s).1.pend.table r = none := by
  intro maxBytes slug cached cp_result active r frameBytes send agent s h
  simp only [forward_request]
  cases hres : resolveStep slug cached cp_result with
  | error e => simpa using h
  | ok tcw =>
    cases hat : dictGet active tcw.1 with
    | none => simpa [hat] using h
    | some w =>
      simp only [hat, forwardSendPhase]
      by_cases hfb : frameBytes > maxBytes
      · simpa [hfb] using h
      · simp only [hfb, ite_false]
        cases send with
        | fail => simpa using dictGet_dictPop (create_pending_request r s).2.table r
        | ok =>
          cases agent with
          | timeoutExpired =>
            simpa using dictGet_dictPop (create_pending_request r s).2.table r
          | agentReply d =>
            simpa using resolve_request_pops r d (create_pending_request r s).2
              (by simp [dictGet_create_pending])

/-- Claim C5 witness: a concrete successful roundtrip leaves no pending
entry for its request_id. -/
theorem C5_no_leaked_pending_witness :
    dictGet (forward_request 65536 "my-slug" (some "tunnel_test123") none
      [("tunnel_test123", 0)] "req-5" 10 .ok (.agentReply pay0)
      { table := [], futures := [] }).1.pend.table "req-5" = none :=
  C5_no_leaked_pending 65536 "my-slug" (some "tunnel_test123") none
    [("tunnel_test123", 0)] "req-5" 10 .ok (.agentReply pay0)
    { table := [], futures := [] } (by decide)

/-- Claim C6: in every run of the forwarder, any trace segment containing
the WebSocket send of the request frame already contains the insertion into
pending_requests (create happens-before send); moreover, immediately after
the insertion the pending table does hold the request_id, so an agent reply
arriving right after the send finds it. -/
theorem C6_create_pending_before_send :
    ∀ (maxBytes : Nat) (slug : String) (cached : Option String)
      (cp_result : Option ResolveRecord) (active : List (String × Nat))
      (r : String) (frameBytes : Nat) (send : SendResult) (agent : AwaitResult)
      (s : PendingState),
      (∀ n, Ev.sendFrame r ∈ ((forward_request maxBytes slug cached cp_result
          active r frameBytes send agent s).1.trace.take n) →
        Ev.createPending r ∈ ((forward_request maxBytes slug cached cp_result
          active r frameBytes send agent s).1.trace.take n)) ∧
      dictGet (create_pending_request r s).2.table r =
        some (create_pending_request r s).1 := by
  intro maxBytes slug cached cp_result active r frameBytes send agent s
  refine ⟨?_, dictGet_create_pending r s⟩
  intro n
  simp only [forward_request]
  cases hres : resolveStep slug cached cp_result with
  | error e => simp
  | ok tcw =>
    cases hat : dictGet active tcw.1 with
    | none => simp [hat]
    | some w =>
      simp only [hat, forwardSendPhase]
      by_cases hfb : frameBytes > maxBytes
      · simp [hfb]
      · simp only [hfb, ite_false]
        have hpair : ∀ m, Ev.sendFrame r ∈
            ([Ev.createPending r, Ev.sendFrame r].take m) →
            Ev.createPending r ∈ ([Ev.createPending r, Ev.sendFrame r].take m) := by
          intro m
          match m with
          | 0 => simp
          | 1 => simp
          | (k + 2) => simp
        cases send with
        | fail => simpa using hpair n
        | ok =>
          cases agent with
          | timeoutExpired => simpa using hpair n
          | agentReply d => simpa using hpair n

/-- Claim C6 witness: in a concrete run whose first two trace events include
the send, the insertion event is also among them. -/
theorem C6_create_pending_before_send_witness :
    Ev.createPending "req-6" ∈ ((forward_request 65536 "my-slug"
      (some "tunnel_test123") none [("tunnel_test123", 0)] "req-6" 10 .ok
      (.agentReply pay0) { table := [], futures := [] }).1.trace.take 2) :=
  (C6_create_pending_before_send 65536 "my-slug" (some "tunnel_test123") none
    [("tunnel_test123", 0)] "req-6" 10 .ok (.agentReply pay0)
    { table := [], futures := [] }).1 2 (by decide)

/-- Claim C3 evidence: resolve_slug collapses a transient Control Plane
failure (an HTTP 500 response, a timeout, a network exception) into None,
the same value as not_found, and the forwarder then answers 404 Slug not
found instead of the 502 the spec requires. -/
theorem C3_transient_resolve_error_gives_404 :
    (forward_request 65536 "my-slug" none
      (resolveSlugReal (.resp 500 { tunnel_id := "tunnel_test123", status := "active" }))
      [("tunnel_test123", 0)] "req-3" 10 .ok (.agentReply pay0)
      { table := [], futures := [] }).1.result = .httpError 404 "Slug not found" ∧
    (forward_request 65536 "my-slug" none (resolveSlugReal .timeoutExc)
      [("tunnel_test123", 0)] "req-3" 10 .ok (.agentReply pay0)
      { table := [], futures := [] }).1.result = .httpError 404 "Slug not found" ∧
    (forward_request 65536 "my-slug" none (resolveSlugReal .otherExc)
      [("tunnel_test123", 0)] "req-3" 10 .ok (.agentReply pay0)
      { table := [], futures := [] }).1.result = .httpError 404 "Slug not found" := by
  decide

/-- Claim C4 counterexample: for one and the same request whose serialized
frame is 65537 bytes (over the 65536 limit), the main handler responds 413
and sends nothing, while the static handler performs no size check: it sends
the frame and returns the agent response, so it does not behave identically
and never responds 413. -/
theorem C4_counterexample :
    (forward_request 65536 "my-slug" (some "tunnel_test123") none
      [("tunnel_test123", 0)] "req-4" 65537 .ok (.agentReply pay0)
      { table := [], futures := [] }).1.result =
        .httpError 413 "Request payload too large for tunnel" ∧
    (forward_request 65536 "my-slug" (some "tunnel_test123") none
      [("tunnel_test123", 0)] "req-4" 65537 .ok (.agentReply pay0)
      { table := [], futures := [] }).1.trace = [] ∧
    (proxy_static_after_slug "my-slug" (some "tunnel_test123") none
      [("tunnel_test123", 0)] "req-4" .ok (.agentReply pay0)
      { table := [], futures := [] }).1.result = .response (renderResponse pay0) ∧
    Ev.sendFrame "req-4" ∈ (proxy_static_after_slug "my-slug"
      (some "tunnel_test123") none [("tunnel_test123", 0)] "req-4" .ok
      (.agentReply pay0) { table := [], futures := [] }).1.trace := by
  decide

/-- Claim C4 (amended): after the slug is inferred, the static handler
agrees with the main handler on every input whose frame fits within
MAX_WS_PAYLOAD_BYTES; the only difference is the missing size check, so the
static handler never responds 413 for any input. -/
theorem C4_static_differs_only_in_size_check :
    ∀ (maxBytes : Nat) (slug : String) (cached : Option String)
      (cp_result : Option ResolveRecord) (active : List (String × Nat))
      (r : String) (frameBytes : Nat) (send : SendResult) (agent : AwaitResult)
      (s : PendingState),
      (frameBytes ≤ maxBytes →
        proxy_static_after_slug slug cached cp_result active r send agent s =
          forward_request maxBytes slug cached cp_result active r frameBytes
            send agent s) ∧
      (∀ detail, (proxy_static_after_slug slug cached cp_result active r send
          agent s).1.result ≠ .httpError 413 detail) := by
  intro maxBytes slug cached cp_result active r frameBytes send agent s
  constructor
  · intro hle
    simp only [proxy_static_after_slug, forward_request]
    cases hres : resolveStep slug cached cp_result with
    | error e => rfl
    | ok tcw =>
      cases hat : dictGet active tcw.1 with
      | none => simp [hat]
      | some w =>
        have hnot : ¬ (frameBytes > maxBytes) := Nat.not_lt.mpr hle
        simp [hat, forwardSendPhase, staticSendPhase, hnot]
  · intro detail
    simp only [proxy_static_after_slug]
    cases hres : resolveStep slug cached cp_result with
    | error e =>
      rcases resolveStep_error_codes slug cached cp_result e hres with h4 | h4 <;>
        simp [h4]
    | ok tcw =>
      cases hat : dictGet active tcw.1 with
      | none => simp [hat]
      | some w =>
        simp only [hat, staticSendPhase]
        cases send with
        | fail => simp
        | ok =>
          cases agent with
          | timeoutExpired => simp
          | agentReply d => simp

/-- Claim C4 witness: on a fitting frame the two handlers produce the same
outcome. -/
theorem C4_static_differs_only_in_size_check_witness :
    proxy_static_after_slug "my-slug" (some "tunnel_test123") none
      [("tunnel_test123", 0)] "req-4w" .ok (.agentReply pay0)
      { table := [], futures := [] } =
    forward_request 65536 "my-slug" (some "tunnel_test123") none
      [("tunnel_test123", 0)] "req-4w" 10 .ok (.agentReply pay0)
      { table := [], futures := [] } :=
  (C4_static_differs_only_in_size_check 65536 "my-slug" (some "tunnel_test123")
    none [("tunnel_test123", 0)] "req-4w" 10 .ok (.agentReply pay0)
    { table := [], futures := [] }).1 (by decide)

/-- Claim C7: registration is create-if-absent on the shared tunnel key: of
two attempts for the same tunnel_id from any pods, the first succeeds and
the second is refused and told the existing owner; the key then names only
the winner (at most one owner); and the local register inserts into
active_tunnels exactly when the shared-store registration succeeded. -/
theorem C7_register_create_if_absent :
    ∀ (rs : RedisState) (podA podB tid : String),
      dictGet rs.strings ("tunnel:" ++ tid) = none →
      ((TunnelRegistry.register_tunnel podA tid rs).1.1 = true ∧
       (TunnelRegistry.register_tunnel podB tid
         (TunnelRegistry.register_tunnel podA tid rs).2).1.1 = false ∧
       (TunnelRegistry.register_tunnel podB tid
         (TunnelRegistry.register_tunnel podA tid rs).2).1.2 = some podA ∧
       (∀ p, dictGet (TunnelRegistry.register_tunnel podB tid
           (TunnelRegistry.register_tunnel podA tid rs).2).2.strings
           ("tunnel:" ++ tid) = some p → p = podA)) ∧
      (∀ (pod : String) (ws : Nat) (ms : List (String × Nat)) (rs2 : RedisState),
        ((TunnelRegistry.register_tunnel pod tid rs2).1.1 = true →
          (TunnelManager.register_tunnel pod tid ws ms rs2).1 = .ok () ∧
          (TunnelManager.register_tunnel pod tid ws ms rs2).2.1 =
            dictInsert ms tid ws) ∧
        ((TunnelRegistry.register_tunnel pod tid rs2).1.1 = false →
          (TunnelManager.register_tunnel pod tid ws ms rs2).1 =
            .error ("Tunnel " ++ tid ++ " already registered on another pod") ∧
          (TunnelManager.register_tunnel pod tid ws ms rs2).2.1 = ms)) := by
  intro rs podA podB tid h
  have hA : TunnelRegistry.register_tunnel podA tid rs =
      ((true, none), redisSAdd ("pod:" ++ podA ++ ":tunnels") tid
        { rs with strings := dictInsert rs.strings ("tunnel:" ++ tid) podA }) := by
    simp [TunnelRegistry.register_tunnel, redisSetNX, h]
  have hstr : (TunnelRegistry.register_tunnel podA tid rs).2.strings =
      dictInsert rs.strings ("tunnel:" ++ tid) podA := by
    rw [hA]
    exact redisSAdd_strings _ _ _
  have hget : dictGet (TunnelRegistry.register_tunnel podA tid rs).2.strings
      ("tunnel:" ++ tid) = some podA := by
    rw [hstr]
    exact dictGet_dictInsert _ _ _
  have hBgen : ∀ rsX : RedisState,
      dictGet rsX.strings ("tunnel:" ++ tid) = some podA →
      TunnelRegistry.register_tunnel podB tid rsX = ((false, some podA), rsX) := by
    intro rsX hx
    simp [TunnelRegistry.register_tunnel, redisSetNX, hx]
  have hB := hBgen _ hget
  refine ⟨⟨by rw [hA], by rw [hB], by rw [hB], ?_⟩, ?_⟩
  · intro p hp
    rw [hB] at hp
    rw [hget] at hp
    exact (Option.some.inj hp).symm
  · intro pod ws ms rs2
    constructor
    · intro hreg
      simp [TunnelManager.register_tunnel, hreg]
    · intro hreg
      simp [TunnelManager.register_tunnel, hreg]

/-- Claim C7 witness: a concrete two-pod race on an empty store. -/
theorem C7_register_create_if_absent_witness :
    (TunnelRegistry.register_tunnel "pod-a" "t1" { strings := [], sets := [] }).1.1 = true ∧
    (TunnelRegistry.register_tunnel "pod-b" "t1"
      (TunnelRegistry.register_tunnel "pod-a" "t1" { strings := [], sets := [] }).2).1.2 =
      some "pod-a" ∧
    (TunnelManager.register_tunnel "pod-a" "t1" 7 [] { strings := [], sets := [] }).1 =
      .ok () := by
  have h := C7_register_create_if_absent { strings := [], sets := [] }
    "pod-a" "pod-b" "t1" (by decide)
  exact ⟨h.1.1, h.1.2.2.1,
    ((h.2 "pod-a" 7 [] { strings := [], sets := [] }).1 (by decide)).1⟩

/-- Claim C1: when a token header is presented (non-empty) and the Control
Plane validation verdict reports it invalid for the tunnel, the admission
handler closes with 1008 and a reason containing the Control Plane status,
and creates no entry in active_tunnels and no key in the shared store (both
are returned unchanged). As shipped the mock validator never reports a
token invalid, which is the subject of claim C2; token validity is the
Control Plane verdict, passed here as a parameter. -/
theorem C1_invalid_token_closes_1008 :
    ∀ (tok : Option String) (vr : ValidationDict) (pod tid : String) (ws : Nat)
      (ms : List (String × Nat)) (rs : RedisState),
      pyTruthyStr tok = true →
      vr.valid.getD false = false →
      websocket_tunnel_admission tok (some vr) pod tid ws ms rs =
        ([.accept, .close 1008 ("Invalid tunnel credentials: " ++ vr.status.getD "invalid")],
          ms, rs) ∧
      (∃ pre post : String,
        "Invalid tunnel credentials: " ++ vr.status.getD "invalid" =
          pre ++ (vr.status.getD "invalid") ++ post) := by
  intro tok vr pod tid ws ms rs htok hval
  constructor
  · simp [websocket_tunnel_admission, htok, hval]
  · exact ⟨"Invalid tunnel credentials: ", "", by simp⟩

/-- Claim C1 witness: the scenario of the spec with a wrong token, under a
rejecting Control Plane verdict. -/
theorem C1_invalid_token_closes_1008_witness :
    websocket_tunnel_admission (some "wrong_token") (some invalidVerdict) "pod-a"
      "tunnel_test123" 3 [] { strings := [], sets := [] } =
      ([.accept, .close 1008 "Invalid tunnel credentials: unauthorized"], [],
        { strings := [], sets := [] }) := by
  have h := (C1_invalid_token_closes_1008 (some "wrong_token") invalidVerdict
    "pod-a" "tunnel_test123" 3 [] { strings := [], sets := [] }
    (by decide) (by decide)).1
  simpa [invalidVerdict] using h

/-- Claim C9: every admission rejection accepts the handshake first and then
closes with an application-level code: missing token → 1008; transient
Control Plane failure → 1011; verdict with a non-active status → 1008 with
the status in the reason; duplicate registration → 1008; and whenever the
trace closes, the receive loop is never entered - the trace is exactly the
accept followed by that close. -/
theorem C9_admission_rejections :
    ∀ (tok : Option String) (validation : Option ValidationDict)
      (pod tid : String) (ws : Nat) (ms : List (String × Nat)) (rs : RedisState),
      (pyTruthyStr tok = false →
        websocket_tunnel_admission tok validation pod tid ws ms rs =
          ([.accept, .close 1008 "Missing X-Tunnel-Token header"], ms, rs)) ∧
      (pyTruthyStr tok = true → validation = none →
        websocket_tunnel_admission tok validation pod tid ws ms rs =
          ([.accept, .close 1011 "Control Plane unavailable"], ms, rs)) ∧
      (∀ vr st, pyTruthyStr tok = true → validation = some vr →
        vr.valid.getD false = true → vr.status = some st → ¬ st = "active" →
        websocket_tunnel_admission tok validation pod tid ws ms rs =
          ([.accept, .close 1008 ("Tunnel status: " ++ st)], ms, rs) ∧
        ∃ pre post : String, "Tunnel status: " ++ st = pre ++ st ++ post) ∧
      (∀ vr, pyTruthyStr tok = true → validation = some vr →
        vr.valid.getD false = true → vr.status = some "active" →
        (TunnelRegistry.register_tunnel pod tid rs).1.1 = false →
        websocket_tunnel_admission tok validation pod tid ws ms rs =
          ([.accept, .close 1008
              ("Tunnel " ++ tid ++ " already registered on another pod")], ms, rs)) ∧
      (∀ code reason,
        AdmissionAction.close code reason ∈
          (websocket_tunnel_admission tok validation pod tid ws ms rs).1 →
        AdmissionAction.enterLoop ∉
          (websocket_tunnel_admission tok validation pod tid ws ms rs).1 ∧
        (websocket_tunnel_admission tok validation pod tid ws ms rs).1 =
          [AdmissionAction.accept, AdmissionAction.close code reason]) := by
  intro tok validation pod tid ws ms rs
  refine ⟨?_, ?_, ?_, ?_, ?_⟩
  · intro h
    simp [websocket_tunnel_admission, h]
  · intro h hv
    subst hv
    simp [websocket_tunnel_admission, h]
  · intro vr st h hv hvalid hst hne
    subst hv
    constructor
    · simp [websocket_tunnel_admission, h, hvalid, hst, hne, pyStrOfOptStr]
    · exact ⟨"Tunnel status: ", "", by simp⟩
  · intro vr h hv hvalid hst hreg
    subst hv
    have hb : (vr.status == some "active") = true := by simp [hst]
    have hs2 := register_tunnel_fail_state pod tid rs hreg
    simp [websocket_tunnel_admission, h, hvalid, hb,
      TunnelManager.register_tunnel, hreg, hs2]
  · intro code reason hmem
    by_cases h : pyTruthyStr tok = true
    · cases validation with
      | none =>
        have htr : (websocket_tunnel_admission tok none pod tid ws ms rs).1 =
            [.accept, .close 1011 "Control Plane unavailable"] := by
          simp [websocket_tunnel_admission, h]
        rw [htr] at hmem ⊢
        simp at hmem
        rcases hmem with ⟨hc, hr⟩
        subst hc; subst hr
        exact ⟨by simp, rfl⟩
      | some vr =>
        by_cases hvalid : vr.valid.getD false = true
        · by_cases hb : (vr.status == some "active") = true
          · by_cases hreg : (TunnelRegistry.register_tunnel pod tid rs).1.1 = true
            · have htr : (websocket_tunnel_admission tok (some vr) pod tid ws ms rs).1 =
                  [.accept, .enterLoop] := by
                simp [websocket_tunnel_admission, h, hvalid, hb,
                  TunnelManager.register_tunnel, hreg]
              rw [htr] at hmem
              simp at hmem
            · have hregf : (TunnelRegistry.register_tunnel pod tid rs).1.1 = false :=
                by simpa using hreg
              have htr : (websocket_tunnel_admission tok (some vr) pod tid ws ms rs).1 =
                  [.accept, .close 1008
                    ("Tunnel " ++ tid ++ " already registered on another pod")] := by
                simp [websocket_tunnel_admission, h, hvalid, hb,
                  TunnelManager.register_tunnel, hregf]
              rw [htr] at hmem ⊢
              simp at hmem
              rcases hmem with ⟨hc, hr⟩
              subst hc; subst hr
              exact ⟨by simp, rfl⟩
          · have hbf : (vr.status == some "active") = false := by simpa using hb
            have htr : (websocket_tunnel_admission tok (some vr) pod tid ws ms rs).1 =
                [.accept, .close 1008 ("Tunnel status: " ++ pyStrOfOptStr vr.status)] := by
              simp [websocket_tunnel_admission, h, hvalid, hbf]
            rw [htr] at hmem ⊢
            simp at hmem
            rcases hmem with ⟨hc, hr⟩
            subst hc; subst hr
            exact ⟨by simp, rfl⟩
        · have hvf : vr.valid.getD false = false := by simpa using hvalid
          have htr : (websocket_tunnel_admission tok (some vr) pod tid ws ms rs).1 =
              [.accept, .close 1008
                ("Invalid tunnel credentials: " ++ vr.status.getD "invalid")] := by
            simp [websocket_tunnel_admission, h, hvf]
          rw [htr] at hmem ⊢
          simp at hmem
          rcases hmem with ⟨hc, hr⟩
          subst hc; subst hr
          exact ⟨by simp, rfl⟩
    · have hf : pyTruthyStr tok = false := by simpa using h
      have htr : (websocket_tunnel_admission tok validation pod tid ws ms rs).1 =
          [.accept, .close 1008 "Missing X-Tunnel-Token header"] := by
        simp [websocket_tunnel_admission, hf]
      rw [htr] at hmem ⊢
      simp at hmem
      rcases hmem with ⟨hc, hr⟩
      subst hc; subst hr
      exact ⟨by simp, rfl⟩

/-- Claim C9 witness: a missing token is rejected with 1008 after accepting
the handshake. -/
theorem C9_admission_rejections_witness :
    websocket_tunnel_admission none (some invalidVerdict) "pod-a" "t" 0 []
      { strings := [], sets := [] } =
      ([.accept, .close 1008 "Missing X-Tunnel-Token header"], [],
        { strings := [], sets := [] }) :=
  (C9_admission_rejections none (some invalidVerdict) "pod-a" "t" 0 []
    { strings := [], sets := [] }).1 (by decide)

end BinduEdge
